import Mathlib

/-!
Verification of `app.py` (AI Novelist Studio): a single Streamlit script.
The script keeps four session variables (a story bible record and three
text strings), three mock generation functions that only format strings,
and a handful of gated button areas.  We embed the session state, the
per-click step function, and the render gating, and prove the spec claims
about them.
-/

namespace NovelCreator

/-- The story bible record created at session start (app.py lines 40-44):
a character-name-to-description mapping and a running summary string.
The mapping is embedded as an association list. -/
structure StoryBible where
  characters : List (String × String)
  summary : String
deriving Repr, DecidableEq

/-- The four Streamlit session variables (app.py lines 40-50). -/
structure SessionState where
  story_bible : StoryBible
  scene_card : String
  draft : String
  report : String
deriving Repr, DecidableEq

/-- The sidebar widget values read on every rerun (app.py lines 20-29). -/
structure Config where
  api_key : String
  genre : String
  tone : String
  style : String
deriving Repr, DecidableEq

/-- Session-start values of the four session variables (app.py lines 40-50). -/
def initState : SessionState :=
  { story_bible := { characters := [], summary := "Start of the story." }
    scene_card := ""
    draft := ""
    report := "" }

/-- Mock function `generate_outline` (app.py lines 62-72): a fixed f-string
over `premise` and `genre`; the `context` argument is accepted but never
interpolated.  The `time.sleep(2)` has no observable effect on the result. -/
def generate_outline (premise genre context : String) : String :=
  "\x7b\n    \"title\": \"Mock Outline for " ++ genre ++
    "\",\n    \"beats\": [\n        \"1. " ++ premise ++
    " (The Setup)\",\n        \"2. The protagonist faces a glitch in the system.\",\n        \"3. A sudden betrayal occurs.\",\n        \"4. Cliffhanger ending.\"\n    ]\n\x7d"

/-- Mock function `write_draft` (app.py lines 74-84): a fixed f-string over
`scene_card` and `style`; `time.sleep(3)` has no observable effect. -/
def write_draft (scene_card style : String) : String :=
  "\n    The neon lights of the server room hummed with a headache-inducing buzz. \n    This was the style of " ++ style ++
    "—short, punchy, no nonsense.\n    \n    \"System breach,\" the console read.\n    \n    He didn\x27t panic. He never panicked. He just typed faster, his fingers blurring like hummingbirds against the mechanical keys.\n    (This is a mock draft generated based on: " ++ scene_card ++
    ")\n    "

/-- Mock function `critique_draft` (app.py lines 86-93): a fixed f-string
over `genre` only; the `draft` argument is accepted but never interpolated.
`time.sleep(2)` has no observable effect. -/
def critique_draft (draft genre : String) : String :=
  "\n    # Editorial Report\n    * **Genre Compliance:** " ++ genre ++
    " conventions are met.\n    * **Pacing:** Good, but the middle section drags.\n    * **Logic Check:** Why did the console buzz? Servers are usually silent.\n    "

/-- The LLM handle built by `ChatOpenAI(model="gpt-4-turbo", temperature=0.7)`
(app.py line 56).  Only its construction matters here; it is never called. -/
structure ChatOpenAI where
  model : String
  temperature : Float
deriving Repr

/-- LLM setup (app.py lines 54-56): `llm` stays `None` unless the API-key
string is truthy (non-empty). -/
def llmInit (api_key : String) : Option ChatOpenAI :=
  if api_key ≠ "" then some { model := "gpt-4-turbo", temperature := 0.7 }
  else none

/-- Environment-variable write for the credential (app.py lines 20-22):
`os.environ["OPENAI_API_KEY"] = api_key` runs only when the field is
truthy (non-empty).  The environment is embedded as a name-to-value map. -/
def setEnvApiKey (env : String → Option String) (api_key : String) :
    String → Option String :=
  if api_key ≠ "" then
    fun name => if name = "OPENAI_API_KEY" then some api_key else env name
  else env

/-- `json.dumps` of the characters mapping (called at app.py line 105).
Escaping of JSON special characters inside keys and values is not modelled;
the resulting string is only ever passed to `generate_outline`, which
ignores its `context` argument. -/
def jsonDumpsChars (chars : List (String × String)) : String :=
  "\x7b" ++
    String.intercalate ", "
      (chars.map (fun kv => "\"" ++ kv.1 ++ "\": \"" ++ kv.2 ++ "\"")) ++
    "\x7d"

/-- `json.dumps(st.session_state[\x27story_bible\x27])` (app.py line 105),
with the same caveat on string escaping as `jsonDumpsChars`. -/
def jsonDumpsBible (b : StoryBible) : String :=
  "\x7b\"characters\": " ++ jsonDumpsChars b.characters ++
    ", \"summary\": \"" ++ b.summary ++ "\"\x7d"

/-- The user interactions that mutate session state.  Each button handler
(app.py lines 102-134) and the scene-card edit writeback (lines 113-114)
becomes one event; `clearSession` is the sidebar reset (lines 32-34). -/
inductive Event where
  | generateOutline (premise : String)
  | editSceneCard (text : String)
  | writeDraft
  | analyzeEdit (premise : String)
  | clearSession
deriving Repr, DecidableEq

/-- One interaction step.  Buttons that the UI only renders behind a gate
(`Write Draft` behind a non-empty scene card, `Analyze and Edit` behind a
non-empty draft, likewise the scene-card editor) can only fire when that
gate is open, so the gated events leave the state unchanged otherwise.
`clearSession` models `st.session_state.clear()` followed by the rerun
that re-initializes every key (lines 32-34 and 40-50). -/
def step (c : Config) (e : Event) (s : SessionState) : SessionState :=
  match e with
  | Event.generateOutline premise =>
      { s with scene_card :=
          generate_outline premise c.genre (jsonDumpsBible s.story_bible) }
  | Event.editSceneCard text =>
      if s.scene_card ≠ "" then { s with scene_card := text } else s
  | Event.writeDraft =>
      if s.scene_card ≠ "" then
        { s with draft := write_draft s.scene_card c.style }
      else s
  | Event.analyzeEdit premise =>
      if s.draft ≠ "" then
        { s with
            report := critique_draft s.draft c.genre
            story_bible :=
              { s.story_bible with
                  summary := s.story_bible.summary ++
                    (" -> Processed premise: " ++ premise) } }
      else s
  | Event.clearSession => initState

/-- A whole session: fold the step function over a list of interactions,
each taken with the sidebar configuration current at that click. -/
def run (s : SessionState) : List (Config × Event) → SessionState
  | [] => s
  | ce :: rest => run (step ce.1 ce.2 s) rest

/-- Which conditional areas the script renders for a given session state. -/
structure Rendered where
  generateOutlineButton : Bool
  sceneCardEditor : Bool
  draftPanel : Bool
  reportExpanders : Bool
deriving Repr, DecidableEq

/-- The render gating of app.py: the premise box and `Generate Outline`
button always render; the scene-card editor plus `Write Draft` button
render iff `scene_card` is truthy (line 111); the draft panel plus
`Analyze and Edit` button render iff `draft` is truthy (line 124); the
editorial-report and story-bible expanders render iff `report` is truthy
(line 137). -/
def render (s : SessionState) : Rendered :=
  { generateOutlineButton := true
    sceneCardEditor := s.scene_card != ""
    draftPanel := s.draft != ""
    reportExpanders := s.report != "" }

/-- Spec-side rendering function, written from the amended claim C3: which
conditional areas render is a function of exactly the three presence flags
scene-card-exists, draft-exists and report-exists (the story-bible and
report expanders share the report flag). -/
def renderSpecThreeFlags (sceneCardExists draftExists reportExists : Bool) :
    Rendered :=
  { generateOutlineButton := true
    sceneCardEditor := sceneCardExists
    draftPanel := draftExists
    reportExpanders := reportExists }

/-- Sanity check of the embedded f-string at concrete arguments. -/
theorem generate_outline_concrete : generate_outline "P" "G" "C" =
    "\x7b\n    \"title\": \"Mock Outline for G\",\n    \"beats\": [\n        \"1. P (The Setup)\",\n        \"2. The protagonist faces a glitch in the system.\",\n        \"3. A sudden betrayal occurs.\",\n        \"4. Cliffhanger ending.\"\n    ]\n\x7d" :=
  rfl

/-- Sanity check: the serialized session-start bible matches json.dumps. -/
theorem jsonDumpsBible_concrete : jsonDumpsBible initState.story_bible =
    "\x7b\"characters\": \x7b\x7d, \"summary\": \"Start of the story.\"\x7d" :=
  rfl

/-- Helper: no interaction step ever writes to the characters mapping. -/
theorem characters_preserved (c : Config) (e : Event) (s : SessionState)
    (h : s.story_bible.characters = []) :
    (step c e s).story_bible.characters = [] := by
  cases e with
  | generateOutline p => exact h
  | editSceneCard t => simp only [step]; split <;> exact h
  | writeDraft => simp only [step]; split <;> exact h
  | analyzeEdit p => simp only [step]; split <;> exact h
  | clearSession => rfl

/-- Helper: the empty-characters invariant is preserved by whole runs. -/
theorem run_characters (evs : List (Config × Event)) :
    ∀ s : SessionState, s.story_bible.characters = [] →
      (run s evs).story_bible.characters = [] := by
  induction evs with
  | nil => intro s h; exact h
  | cons ce rest ih =>
      intro s h
      exact ih _ (characters_preserved ce.1 ce.2 s h)

/-- Helper: no interaction step breaks the summary-prefix invariant. -/
theorem summary_preserved (c : Config) (e : Event) (s : SessionState)
    (h : ∃ t, s.story_bible.summary = "Start of the story." ++ t) :
    ∃ t, (step c e s).story_bible.summary = "Start of the story." ++ t := by
  obtain ⟨t, ht⟩ := h
  cases e with
  | generateOutline p => exact ⟨t, ht⟩
  | editSceneCard txt => simp only [step]; split <;> exact ⟨t, ht⟩
  | writeDraft => simp only [step]; split <;> exact ⟨t, ht⟩
  | analyzeEdit p =>
      simp only [step]; split
      · exact ⟨t ++ (" -> Processed premise: " ++ p), by
          show s.story_bible.summary ++ (" -> Processed premise: " ++ p) = _
          rw [ht, String.append_assoc]⟩
      · exact ⟨t, ht⟩
  | clearSession => exact ⟨"", (String.append_empty _).symm⟩

/-- Helper: the summary-prefix invariant is preserved by whole runs. -/
theorem run_summary (evs : List (Config × Event)) :
    ∀ s : SessionState,
      (∃ t, s.story_bible.summary = "Start of the story." ++ t) →
      ∃ t, (run s evs).story_bible.summary = "Start of the story." ++ t := by
  induction evs with
  | nil => intro s h; exact h
  | cons ce rest ih =>
      intro s h
      exact ih _ (summary_preserved ce.1 ce.2 s h)

/-- C1: each of generate_outline, write_draft and critique_draft is a pure,
deterministic string-formatting function: equal arguments give equal
results, and the outline a click stores depends only on the premise, the
genre widget and the story bible, never on other program state. -/
theorem C1_generation_functions_pure :
    (∀ p g c p2 g2 c2, p = p2 → g = g2 → c = c2 →
      generate_outline p g c = generate_outline p2 g2 c2)
    ∧ (∀ sc st sc2 st2, sc = sc2 → st = st2 →
      write_draft sc st = write_draft sc2 st2)
    ∧ (∀ d g d2 g2, d = d2 → g = g2 →
      critique_draft d g = critique_draft d2 g2)
    ∧ (∀ (c1 c2 : Config) (s1 s2 : SessionState) (p : String),
      c1.genre = c2.genre → s1.story_bible = s2.story_bible →
      (step c1 (Event.generateOutline p) s1).scene_card
        = (step c2 (Event.generateOutline p) s2).scene_card) := by
  refine ⟨?_, ?_, ?_, ?_⟩
  · intro p g c p2 g2 c2 hp hg hc; rw [hp, hg, hc]
  · intro sc st sc2 st2 h1 h2; rw [h1, h2]
  · intro d g d2 g2 h1 h2; rw [h1, h2]
  · intro c1 c2 s1 s2 p hg hb
    show generate_outline p c1.genre (jsonDumpsBible s1.story_bible)
      = generate_outline p c2.genre (jsonDumpsBible s2.story_bible)
    rw [hg, hb]

/-- Witness for C1 at concrete inputs. -/
theorem C1_generation_functions_pure_witness :
    generate_outline "p" "g" "c" = generate_outline "p" "g" "c"
    ∧ write_draft "sc" "st" = write_draft "sc" "st"
    ∧ critique_draft "d" "g" = critique_draft "d" "g"
    ∧ (step { api_key := "k1", genre := "g", tone := "t1", style := "s1" }
        (Event.generateOutline "p") initState).scene_card
      = (step { api_key := "k2", genre := "g", tone := "t2", style := "s2" }
        (Event.generateOutline "p") initState).scene_card :=
  ⟨C1_generation_functions_pure.1 "p" "g" "c" "p" "g" "c" rfl rfl rfl,
   C1_generation_functions_pure.2.1 "sc" "st" "sc" "st" rfl rfl,
   C1_generation_functions_pure.2.2.1 "d" "g" "d" "g" rfl rfl,
   C1_generation_functions_pure.2.2.2 _ _ initState initState "p" rfl rfl⟩

/-- C2: with an empty API-key input the LLM object stays uninitialized,
and every interaction step is unchanged by the credential: two sidebar
configurations agreeing on genre, tone and style (but not necessarily on
the API key) produce identical state transitions. -/
theorem C2_no_credential_no_effect :
    llmInit "" = none
    ∧ ∀ (c1 c2 : Config), c1.genre = c2.genre → c1.tone = c2.tone →
        c1.style = c2.style → ∀ (e : Event) (s : SessionState),
        step c1 e s = step c2 e s := by
  constructor
  · rfl
  · intro c1 c2 hg _ht hs e s
    cases e <;> simp [step, hg, hs]

/-- Witness for C2: a configuration with a credential and one without give
the same transition on a concrete event and state. -/
theorem C2_no_credential_no_effect_witness :
    llmInit "" = none
    ∧ step { api_key := "sk-1", genre := "Cyberpunk", tone := "Dark",
             style := "Hemingway-esque brevity" } Event.writeDraft initState
      = step { api_key := "", genre := "Cyberpunk", tone := "Dark",
               style := "Hemingway-esque brevity" } Event.writeDraft initState :=
  ⟨C2_no_credential_no_effect.1,
   C2_no_credential_no_effect.2 _ _ rfl rfl rfl Event.writeDraft initState⟩

/-- C3 counterexample: the story bible is never used as a render gate.
Rendering is invariant under any change of the bible (first conjunct),
exhibited at a concrete pair of states that differ only in the bible yet
render identically (second conjunct); this refutes the claim that all four
flags, the bible included, gate which button area renders. -/
theorem C3_bible_never_gates_render :
    (∀ (b1 b2 : StoryBible) (sc d r : String),
      render { story_bible := b1, scene_card := sc, draft := d, report := r }
        = render { story_bible := b2, scene_card := sc, draft := d, report := r })
    ∧ render { story_bible := { characters := [("Jinx", "a hacker")],
                                summary := "other" },
               scene_card := "", draft := "", report := "" }
      = render initState :=
  ⟨fun _ _ _ _ _ => rfl, rfl⟩

/-- C3 amended: which button area renders is determined exactly by
presence checks on the three flags scene-card-exists, draft-exists and
report-exists; each of the three is genuinely used as a gate, while the
story bible never influences rendering (its expander is gated by the
report flag instead). -/
theorem C3_three_flags_gate_render :
    (∀ s : SessionState,
      render s = renderSpecThreeFlags (s.scene_card != "") (s.draft != "")
        (s.report != ""))
    ∧ (∀ (b1 b2 : StoryBible) (sc d r : String),
      render { story_bible := b1, scene_card := sc, draft := d, report := r }
        = render { story_bible := b2, scene_card := sc, draft := d, report := r })
    ∧ (∃ s1 s2 : SessionState, s1.story_bible = s2.story_bible
        ∧ s1.draft = s2.draft ∧ s1.report = s2.report ∧ render s1 ≠ render s2)
    ∧ (∃ s1 s2 : SessionState, s1.story_bible = s2.story_bible
        ∧ s1.scene_card = s2.scene_card ∧ s1.report = s2.report
        ∧ render s1 ≠ render s2)
    ∧ (∃ s1 s2 : SessionState, s1.story_bible = s2.story_bible
        ∧ s1.scene_card = s2.scene_card ∧ s1.draft = s2.draft
        ∧ render s1 ≠ render s2) := by
  refine ⟨fun s => rfl, fun _ _ _ _ _ => rfl, ?_, ?_, ?_⟩
  · exact ⟨initState, { initState with scene_card := "x" },
      rfl, rfl, rfl, by decide⟩
  · exact ⟨initState, { initState with draft := "x" },
      rfl, rfl, rfl, by decide⟩
  · exact ⟨initState, { initState with report := "x" },
      rfl, rfl, rfl, by decide⟩

/-- C4: clicking Clear Session Memory resets the session: the subsequent
rerun re-initializes every session variable to its session-start value,
with the bible back to empty characters and the initial summary and the
three text strings empty. -/
theorem C4_clear_session_resets :
    (∀ (c : Config) (s : SessionState), step c Event.clearSession s = initState)
    ∧ initState.story_bible
        = { characters := [], summary := "Start of the story." }
    ∧ initState.scene_card = "" ∧ initState.draft = ""
    ∧ initState.report = "" :=
  ⟨fun _ _ => rfl, rfl, rfl, rfl, rfl⟩

/-- C5: in every session state reachable by any sequence of interactions,
the characters mapping of the story bible is still the empty mapping it
was initialized to; no operation writes to it. -/
theorem C5_characters_never_populated (evs : List (Config × Event)) :
    (run initState evs).story_bible.characters = [] :=
  run_characters evs initState rfl

/-- C6: for every premise, genre and context, the string returned by
generate_outline contains the premise verbatim as a substring. -/
theorem C6_outline_contains_premise (premise genre context : String) :
    ∃ s1 s2, generate_outline premise genre context = s1 ++ premise ++ s2 :=
  ⟨"\x7b\n    \"title\": \"Mock Outline for " ++ genre ++
     "\",\n    \"beats\": [\n        \"1. ",
   " (The Setup)\",\n        \"2. The protagonist faces a glitch in the system.\",\n        \"3. A sudden betrayal occurs.\",\n        \"4. Cliffhanger ending.\"\n    ]\n\x7d",
   rfl⟩

/-- C7: a non-empty API-key field writes exactly that string to the
OPENAI_API_KEY environment variable; an empty field leaves the whole
environment untouched, and no other variable is ever written. -/
theorem C7_api_key_env (env : String → Option String) (k : String) :
    (k ≠ "" → setEnvApiKey env k "OPENAI_API_KEY" = some k)
    ∧ setEnvApiKey env "" = env
    ∧ (∀ name, name ≠ "OPENAI_API_KEY" → setEnvApiKey env k name = env name) := by
  refine ⟨?_, ?_, ?_⟩
  · intro h; simp [setEnvApiKey, h]
  · simp [setEnvApiKey]
  · intro name hn
    unfold setEnvApiKey
    split
    · simp [hn]
    · rfl

/-- Witness for C7 at a concrete environment and credential. -/
theorem C7_api_key_env_witness :
    setEnvApiKey (fun _ => none) "sk-test" "OPENAI_API_KEY" = some "sk-test"
    ∧ setEnvApiKey (fun _ => none) "" = (fun _ => none : String → Option String)
    ∧ setEnvApiKey (fun _ => none) "sk-test" "PATH" = none :=
  ⟨(C7_api_key_env (fun _ => none) "sk-test").1 (by simp),
   (C7_api_key_env (fun _ => none) "").2.1,
   (C7_api_key_env (fun _ => none) "sk-test").2.2 "PATH" (by simp)⟩

/-- C8: critique_draft is independent of its draft argument: any two
drafts give the same report for a given genre, and the genre does appear
verbatim in the output. -/
theorem C8_critique_ignores_draft :
    (∀ (g d1 d2 : String), critique_draft d1 g = critique_draft d2 g)
    ∧ (∀ (g d : String), ∃ s1 s2, critique_draft d g = s1 ++ g ++ s2) :=
  ⟨fun _ _ _ => rfl,
   fun g d =>
     ⟨"\n    # Editorial Report\n    * **Genre Compliance:** ",
      " conventions are met.\n    * **Pacing:** Good, but the middle section drags.\n    * **Logic Check:** Why did the console buzz? Servers are usually silent.\n    ",
      rfl⟩⟩

/-- C9: the Generate Outline click writes only scene_card: the draft, the
report and the story bible (summary included) are exactly what they were
before the click, so a stale draft and report persist alongside the fresh
outline. -/
theorem C9_generate_outline_frame (c : Config) (s : SessionState)
    (p : String) :
    (step c (Event.generateOutline p) s).draft = s.draft
    ∧ (step c (Event.generateOutline p) s).report = s.report
    ∧ (step c (Event.generateOutline p) s).story_bible = s.story_bible :=
  ⟨rfl, rfl, rfl⟩

/-- C10: in every reachable session state the story-bible summary begins
with "Start of the story.": it is initialized to that string, the only
mutation appends to it, and reset reinitializes it. -/
theorem C10_summary_prefix_invariant (evs : List (Config × Event)) :
    ∃ t, (run initState evs).story_bible.summary
      = "Start of the story." ++ t :=
  run_summary evs initState ⟨"", (String.append_empty _).symm⟩

end NovelCreator
